import Mathlib

/-!
# Verification of the SPItest workshop adapter

Shallow embedding of `src/spitest/adapter.py` (class `Workshop`): the LED
mode-controller fast tick (`LED_ioloop_callback`), the temperature sampler and
thermometer slow tick (`temp_ioloop_callback`), the small setter methods, and a
model of the parameter-tree facade.  Python floats are embedded as rationals,
Python ints as `ℤ`/`ℕ`, Python lists indexed by small integers as total
functions `ℕ → _` (all reachable accesses use indices 0..2 resp. 0..9, proved
where relevant).  Calls to the MCP23008 output bank (`self.mcp.output(pin,
level)`) are recorded in an explicit call log so that theorems can talk about
exactly which hardware writes a tick performs.
-/

namespace SPItest

/-- Pin index of the red LED (`Workshop.RED = 2`). -/
def RED : ℕ := 2

/-- Pin index of the yellow LED (`Workshop.YELLOW = 1`). -/
def YELLOW : ℕ := 1

/-- Pin index of the green LED (`Workshop.GREEN = 0`). -/
def GREEN : ℕ := 0

/-- One output-bank call `mcp.output(pin, level)`: channel index and level. -/
abbrev Call := ℕ × ℤ

/-- The mutable state of the Python `Workshop` instance (fields named as in
`Workshop.__init__`).  `ledTaskRunning` / `tempTaskRunning` model whether the
corresponding tornado `PeriodicCallback` has been started and not stopped. -/
structure Workshop where
  led_states : ℕ → ℤ
  avg_temp : ℚ
  avg_temp_calc : ℕ → ℚ
  avg_count : ℕ
  ten_count_switch : Bool
  temp_task_enable : Bool
  temp_bounds : ℚ × ℚ
  task_mode : String
  LED_task_enable : Bool
  LED_task_interval : ℚ
  rave_ioloop_counter : ℕ
  traffic_wait_counter : ℕ
  traffic_loop_counter : ℕ
  temp_count : ℕ
  ledTaskRunning : Bool
  tempTaskRunning : Bool

/-- The state built by `Workshop.__init__(True, 0.25, True)` (the adapter's
default options): all LEDs driven to 0, empty rolling window, default bounds
`[21.50, 22.00]`, mode `'command'`, all counters zero, both periodic tasks
started. -/
def initWorkshop : Workshop where
  led_states := fun _ => 0
  avg_temp := 0
  avg_temp_calc := fun _ => 0
  avg_count := 0
  ten_count_switch := false
  temp_task_enable := true
  temp_bounds := (43 / 2, 22)
  task_mode := "command"
  LED_task_enable := true
  LED_task_interval := 1 / 4
  rave_ioloop_counter := 0
  traffic_wait_counter := 0
  traffic_loop_counter := 0
  temp_count := 0
  ledTaskRunning := true
  tempTaskRunning := true

/-- The output-bank calls made by `__init__` itself
(`for pin in range(num_pins): ... self.mcp.output(pin, 0)`). -/
def initCalls : List Call := [(0, 0), (1, 0), (2, 0)]

/-- `Workshop.update_led`: command the output bank and mirror the level in
`led_states`. -/
def update_led (s : Workshop) (led : ℕ) (state : ℤ) : Workshop × List Call :=
  ({ s with led_states := Function.update s.led_states led state }, [(led, state)])

/-- A sequence of consecutive `update_led` calls, in order. -/
def update_leds (s : Workshop) : List (ℕ × ℤ) → Workshop × List Call
  | [] => (s, [])
  | (l, v) :: rest =>
    let r := update_led s l v
    let r2 := update_leds r.1 rest
    (r2.1, r.2 ++ r2.2)

/-- `Workshop.set_task_mode`: store the mode string verbatim (no validation). -/
def set_task_mode (mode : String) (s : Workshop) : Workshop :=
  { s with task_mode := mode }

/-- `Workshop.set_led_state`: mirror the level, then command the output bank. -/
def set_led_state (led : ℕ) (state : ℤ) (s : Workshop) : Workshop × List Call :=
  ({ s with led_states := Function.update s.led_states led state }, [(led, state)])

/-- `Workshop.set_temp_bounds`: overwrite `temp_bounds[bound]`. -/
def set_temp_bounds (bound : Fin 2) (temp : ℚ) (s : Workshop) : Workshop :=
  if bound = 0 then { s with temp_bounds := (temp, s.temp_bounds.2) }
  else { s with temp_bounds := (s.temp_bounds.1, temp) }

/-- `Workshop.set_LED_task_interval`. -/
def set_LED_task_interval (interval : ℚ) (s : Workshop) : Workshop :=
  { s with LED_task_interval := interval }

/-- `Workshop.start_LED_task`: set the enable flag and start the periodic
callback. -/
def start_LED_task (s : Workshop) : Workshop :=
  { s with LED_task_enable := true, ledTaskRunning := true }

/-- `Workshop.stop_LED_task`: clear the enable flag and stop the periodic
callback. -/
def stop_LED_task (s : Workshop) : Workshop :=
  { s with LED_task_enable := false, ledTaskRunning := false }

/-- `Workshop.set_LED_task_enable`: start/stop the fast task only when the
requested flag differs from the current one.  (Note: this method is defined in
the source but never wired into the parameter tree — see the theorems about the
`enable` leaf below.) -/
def set_LED_task_enable (enable : Bool) (s : Workshop) : Workshop :=
  if enable ≠ s.LED_task_enable then
    if enable then start_LED_task s else stop_LED_task s
  else s

/-- `Workshop.LED_ioloop_callback`, the fast tick.  `picks` supplies, for each
of the three loop iterations of the rave branch, the results of
`random.randint(0, 2)` and `random.randint(0, 1)` (the contract of
`randint(a, b)` is a uniformly random integer in `[a, b]`, hence `Fin 3 × Fin 2`).
Returns the new state together with the list of output-bank calls made, in
order. -/
def LED_ioloop_callback (picks : Fin 3 → Fin 3 × Fin 2) (s : Workshop) :
    Workshop × List Call :=
  let r0 :=
    if s.task_mode = "rave" then
      let r := update_leds s
        [(((picks 0).1 : ℕ), (((picks 0).2 : ℕ) : ℤ)),
         (((picks 1).1 : ℕ), (((picks 1).2 : ℕ) : ℤ)),
         (((picks 2).1 : ℕ), (((picks 2).2 : ℕ) : ℤ))]
      ({ r.1 with rave_ioloop_counter := r.1.rave_ioloop_counter + 1 }, r.2)
    else (s, [])
  let s0 := r0.1
  if s0.task_mode = "traffic" then
    let s1 := { s0 with traffic_wait_counter := s0.traffic_wait_counter + 1 }
    if s1.traffic_wait_counter = 2 then
      let r := update_leds s1 [(YELLOW, 0), (RED, 1)]
      (r.1, r0.2 ++ r.2)
    else if s1.traffic_wait_counter = 14 then
      let r := update_leds s1 [(YELLOW, 1)]
      (r.1, r0.2 ++ r.2)
    else if s1.traffic_wait_counter = 22 then
      let r := update_leds s1 [(RED, 0), (YELLOW, 0), (GREEN, 1)]
      (r.1, r0.2 ++ r.2)
    else if s1.traffic_wait_counter = 34 then
      let r := update_leds s1 [(GREEN, 0), (YELLOW, 1)]
      (r.1, r0.2 ++ r.2)
    else if s1.traffic_wait_counter = 39 then
      ({ s1 with traffic_wait_counter := 0,
                 traffic_loop_counter := s1.traffic_loop_counter + 1 }, r0.2)
    else (s1, r0.2)
  else r0

/-- The sampler stage of `Workshop.temp_ioloop_callback` (lines 422–441 of the
source, everything before the thermometer-mode LED drive): write the reading
at the cursor, recompute the rolling average with the two-phase divisor
(`/ avg_count` before the buffer first fills, `/ 10` from then on), wrap the
cursor, and bump `temp_count`. -/
def samplerTick (temperature : ℚ) (s : Workshop) : Workshop :=
  let buf := Function.update s.avg_temp_calc s.avg_count temperature
  let cnt := s.avg_count + 1
  let total := ∑ i ∈ Finset.range 10, buf i
  let s1 :=
    if s.ten_count_switch then
      { s with avg_temp_calc := buf, avg_temp := total / 10,
               avg_count := if cnt = 10 then 0 else cnt }
    else
      if cnt < 10 then
        { s with avg_temp_calc := buf, avg_temp := total / cnt, avg_count := cnt }
      else
        { s with avg_temp_calc := buf, avg_temp := total / 10,
                 ten_count_switch := true, avg_count := 0 }
  { s1 with temp_count := s1.temp_count + 1 }

/-- `Workshop.temp_ioloop_callback`, the slow tick: record the just-read
`temperature` in the circular buffer, recompute the rolling average with the
two-phase divisor, bump `temp_count`, and in thermometer mode drive the LEDs
from the thresholds. -/
def temp_ioloop_callback (temperature : ℚ) (s : Workshop) : Workshop × List Call :=
  let s2 := samplerTick temperature s
  if s2.task_mode = "thermometer" then
    let r := update_leds s2 [(RED, 0), (YELLOW, 0), (GREEN, 0)]
    if temperature < s2.temp_bounds.1 then
      let r2 := update_led r.1 YELLOW 1
      (r2.1, r.2 ++ r2.2)
    else if temperature < s2.temp_bounds.2 ∧ s2.temp_bounds.1 < temperature then
      let r2 := update_led r.1 GREEN 1
      (r2.1, r.2 ++ r2.2)
    else if s2.temp_bounds.2 < temperature then
      let r2 := update_led r.1 RED 1
      (r2.1, r.2 ++ r2.2)
    else (r.1, r.2)
  else (s2, [])

/-- Iterate the fast tick `n` times, feeding fresh random picks each tick and
concatenating the output-bank call logs in order. -/
def iterateFast (ps : ℕ → Fin 3 → Fin 3 × Fin 2) : ℕ → Workshop → Workshop × List Call
  | 0, s => (s, [])
  | n + 1, s =>
    let r := LED_ioloop_callback (ps 0) s
    let r2 := iterateFast (fun i => ps (i + 1)) n r.1
    (r2.1, r.2 ++ r2.2)

/-- Run the slow tick once per element of `ts` (the successive sensor
readings), in order. -/
def runSlow : List ℚ → Workshop → Workshop
  | [], s => s
  | t :: ts, s => runSlow ts (temp_ioloop_callback t s).1

/-- The traffic table of spec §4.1: the output-bank calls the traffic automaton
makes when the phase counter reaches value `k`. -/
def trafficTable (k : ℕ) : List Call :=
  if k = 2 then [(YELLOW, 0), (RED, 1)]
  else if k = 14 then [(YELLOW, 1)]
  else if k = 22 then [(RED, 0), (YELLOW, 0), (GREEN, 1)]
  else if k = 34 then [(GREEN, 0), (YELLOW, 1)]
  else []

/-- Apply a list of `(pin, level)` writes to a level map, in order (the net
effect of a chain of `update_led` calls on `led_states`). -/
def apply_updates (f : ℕ → ℤ) : List (ℕ × ℤ) → (ℕ → ℤ)
  | [] => f
  | (l, v) :: rest => apply_updates (Function.update f l v) rest

/-- The index into the sample stream whose value sits in buffer slot `j` after
`k` samples have been recorded (meaningful when slot `j` has been written,
i.e. `j < min k 10`). -/
def slotIdx (k j : ℕ) : ℕ :=
  if j < k % 10 then k - k % 10 + j else k + j - k % 10 - 10

/-- Contents of buffer slot `j` after feeding the sample list `ts` (0 for a
slot not yet written). -/
def slotVal (ts : List ℚ) (j : ℕ) : ℚ :=
  if j < ts.length then ts.getD (slotIdx ts.length j) 0 else 0

/-- The divisor the next slow tick will use for the rolling average, read off
the current sampler state (10 once `ten_count_switch` is set or the buffer
fills on this tick, the incremented count otherwise). -/
def tickDivisor (s : Workshop) : ℕ :=
  if s.ten_count_switch then 10
  else if s.avg_count + 1 < 10 then s.avg_count + 1 else 10

/-- The operations that can touch the `Workshop` state: the two periodic tick
handlers and the setter methods reachable from the parameter tree (plus
`set_LED_task_enable`). -/
inductive Op where
  | fastTick (picks : Fin 3 → Fin 3 × Fin 2)
  | slowTick (temperature : ℚ)
  | setLed (led : Fin 3) (state : ℤ)
  | setMode (mode : String)
  | setBound (which : Fin 2) (temp : ℚ)
  | setInterval (interval : ℚ)
  | setEnable (enable : Bool)

/-- Run one operation, collecting its output-bank calls. -/
def runOp : Op → Workshop → Workshop × List Call
  | .fastTick picks, s => LED_ioloop_callback picks s
  | .slowTick t, s => temp_ioloop_callback t s
  | .setLed l v, s => set_led_state (l : ℕ) v s
  | .setMode m, s => (set_task_mode m s, [])
  | .setBound b t, s => (set_temp_bounds b t s, [])
  | .setInterval v, s => (set_LED_task_interval v s, [])
  | .setEnable e, s => (set_LED_task_enable e s, [])

/-- Run a sequence of operations, concatenating their call logs in order. -/
def runOps : List Op → Workshop → Workshop × List Call
  | [], s => (s, [])
  | op :: ops, s =>
    let r := runOp op s
    let r2 := runOps ops r.1
    (r2.1, r.2 ++ r2.2)

/-- The level of the most recent output-bank call for channel `ch` in a call
log, if any. -/
def lastLevel (log : List Call) (ch : ℕ) : Option ℤ :=
  ((log.filter fun c => c.1 == ch).map Prod.snd).getLast?

/-! ## The parameter-tree facade

The tree mechanics live in the external `odin.adapters.parameter_tree` module,
not in this repository's sources; only the tree constructed in
`Workshop.__init__` is local code.  The node/get/set model below is therefore
modelled from the spec (§3 "ParameterTree node", §4.4 "Parameter Interface"),
and the concrete tree contents are taken from `Workshop.__init__`. -/

/-- A value carried by a parameter-tree leaf (Python ints, floats, strings and
bools). -/
inductive PValue where
  | i (n : ℤ)
  | q (x : ℚ)
  | s (v : String)
  | b (v : Bool)
deriving DecidableEq

/-- Python `int(value)` as used by `set_led_state` (floats truncate toward
zero, bools map to 0/1; string parsing is never exercised by the tree). -/
def PValue.pyInt : PValue → ℤ
  | .i n => n
  | .q x => x.num / (x.den : ℤ)
  | .b v => if v then 1 else 0
  | .s _ => 0

/-- Python `float(value)` as used by `set_LED_task_interval` and the bound
setters. -/
def PValue.pyFloat : PValue → ℚ
  | .i n => (n : ℚ)
  | .q x => x
  | .b v => if v then 1 else 0
  | .s _ => 0

/-- Python `str(value)` as used by `set_task_mode`. -/
def PValue.pyStr : PValue → String
  | .s v => v
  | .i n => toString n
  | .q x => toString x
  | .b v => if v then "True" else "False"

/-- Modelled from the spec: errors of the Parameter Interface — `NotFound`
(path does not exist in the tree) and `ReadOnly` (write attempted on a path
without a setter), structurally distinguishable (spec §7). -/
inductive PTError where
  | NotFound (path : String)
  | ReadOnly (path : String)
deriving DecidableEq

/-- Modelled from the spec: a parameter-tree node is "a mapping from string
keys to either a (getter, setter-or-null) pair or a nested node"; a leaf with
no setter is read-only (spec §3). -/
inductive PTree where
  | leaf (get : Workshop → PValue)
         (set : Option (PValue → Workshop → Workshop × List Call)) : PTree
  | node (children : List (String × PTree)) : PTree

/-- The recursively evaluated result of reading a node: "the subtree or leaf
value" (spec §4.4). -/
inductive GValue where
  | v (x : PValue)
  | node (children : List (String × GValue))

/-- Look a key up among a node's children. -/
def lookupChild (cs : List (String × PTree)) (k : String) : Option PTree :=
  match cs with
  | [] => none
  | (k', t) :: rest => if k' = k then some t else lookupChild rest k

mutual

/-- Modelled from the spec: evaluate a whole subtree into values. -/
def ptGetAll : PTree → Workshop → GValue
  | .leaf g _, s => .v (g s)
  | .node cs, s => .node (ptGetAllList cs s)

def ptGetAllList : List (String × PTree) → Workshop → List (String × GValue)
  | [], _ => []
  | (k, t) :: rest, s => (k, ptGetAll t s) :: ptGetAllList rest s

end

/-- Modelled from the spec: `get(path)` "returns the subtree or leaf value at
`path`, failing with a NotFound-style error if the path does not exist"
(spec §4.4).  Paths arrive already split on `/`. -/
def ptGet : PTree → List String → Workshop → Except PTError GValue
  | t, [], s => .ok (ptGetAll t s)
  | .leaf _ _, p :: _, _ => .error (.NotFound p)
  | .node cs, p :: rest, s =>
    match lookupChild cs p with
    | some t => ptGet t rest s
    | none => .error (.NotFound p)

/-- Modelled from the spec: `set(path, value)` navigates to the leaf at `path`
and invokes its setter, "failing with a ReadOnly-style error if a setter is
absent for a path the caller attempted to write" and with NotFound if the path
does not exist (spec §4.4).  `name` is the full path string used in the error
payload. -/
def ptSet : PTree → String → List String → PValue → Workshop →
    Except PTError (Workshop × List Call)
  | .leaf _ (some f), _, [], v, s => .ok (f v s)
  | .leaf _ none, name, [], _, _ => .error (.ReadOnly name)
  | .node _, name, [], _, _ => .error (.ReadOnly name)
  | .leaf _ _, name, _ :: _, _, _ => .error (.NotFound name)
  | .node cs, name, p :: rest, v, s =>
    match lookupChild cs p with
    | some t => ptSet t name rest v s
    | none => .error (.NotFound name)

/-- The parameter tree built in `Workshop.__init__`.  Note the `enable` leaf:
the source registers the tuple `(lambda: self.LED_task_enable,
self.LED_task_enable)` — the second component is the boolean attribute value
captured at construction, not a function, so the leaf has no callable setter
(the method `set_LED_task_enable` defined in the class is never referenced).
The `server_uptime`, `odin_version`, `tornado_version` and raw `temperature`
getters read environment/hardware data outside the modelled state and are
represented by constants; no claim depends on their values. -/
def workshopTree : PTree :=
  .node
    [("odin_version", .leaf (fun _ => .s "") none),
     ("tornado_version", .leaf (fun _ => .s "") none),
     ("server_uptime", .leaf (fun _ => .q 0) none),
     ("LED_task", .node
       [("rave_count", .leaf (fun s => .i s.rave_ioloop_counter) none),
        ("traffic_count", .leaf (fun s => .i s.traffic_loop_counter) none),
        ("enable", .leaf (fun s => .b s.LED_task_enable) none),
        ("task_mode", .leaf (fun s => .s s.task_mode)
          (some fun v s => (set_task_mode v.pyStr s, []))),
        ("interval", .leaf (fun s => .q s.LED_task_interval)
          (some fun v s => (set_LED_task_interval v.pyFloat s, [])))]),
     ("leds", .node
       [("red", .leaf (fun s => .i (s.led_states RED))
          (some fun v s => set_led_state RED v.pyInt s)),
        ("yellow", .leaf (fun s => .i (s.led_states YELLOW))
          (some fun v s => set_led_state YELLOW v.pyInt s)),
        ("green", .leaf (fun s => .i (s.led_states GREEN))
          (some fun v s => set_led_state GREEN v.pyInt s))]),
     ("temperature", .node
       [("temperature", .leaf (fun _ => .q 0) none),
        ("rolling_avg", .leaf (fun s => .q s.avg_temp) none),
        ("temps_counted", .leaf (fun s => .i s.temp_count) none),
        ("temp_bounds", .node
          [("lower", .leaf (fun s => .q s.temp_bounds.1)
             (some fun v s => (set_temp_bounds 0 v.pyFloat s, []))),
           ("upper", .leaf (fun s => .q s.temp_bounds.2)
             (some fun v s => (set_temp_bounds 1 v.pyFloat s, [])))])])]

/-- The wrapper exception `WorkshopError` that `Workshop.set` re-raises a
`ParameterTreeError` as. -/
inductive WorkshopError where
  | wrap (e : PTError)
deriving DecidableEq

/-- `Workshop.get`: delegate to the tree (tree errors propagate as they
are). -/
def workshopGet (path : List String) (s : Workshop) : Except PTError GValue :=
  ptGet workshopTree path s

/-- `Workshop.set`: delegate to the tree, wrapping any tree error in a
`WorkshopError`. -/
def workshopSet (path : List String) (v : PValue) (s : Workshop) :
    Except WorkshopError (Workshop × List Call) :=
  match ptSet workshopTree (String.intercalate "/" path) path v s with
  | .ok r => .ok r
  | .error e => .error (.wrap e)

/-! ## Fast-tick behaviour by mode -/

@[simp] theorem samplerTick_task_mode (t : ℚ) (s : Workshop) :
    (samplerTick t s).task_mode = s.task_mode := by
  simp only [samplerTick]
  split_ifs <;> rfl

@[simp] theorem samplerTick_temp_bounds (t : ℚ) (s : Workshop) :
    (samplerTick t s).temp_bounds = s.temp_bounds := by
  simp only [samplerTick]
  split_ifs <;> rfl

@[simp] theorem samplerTick_led_states (t : ℚ) (s : Workshop) :
    (samplerTick t s).led_states = s.led_states := by
  simp only [samplerTick]
  split_ifs <;> rfl

@[simp] theorem samplerTick_traffic_wait (t : ℚ) (s : Workshop) :
    (samplerTick t s).traffic_wait_counter = s.traffic_wait_counter := by
  simp only [samplerTick]
  split_ifs <;> rfl

@[simp] theorem samplerTick_traffic_loop (t : ℚ) (s : Workshop) :
    (samplerTick t s).traffic_loop_counter = s.traffic_loop_counter := by
  simp only [samplerTick]
  split_ifs <;> rfl

@[simp] theorem samplerTick_rave (t : ℚ) (s : Workshop) :
    (samplerTick t s).rave_ioloop_counter = s.rave_ioloop_counter := by
  simp only [samplerTick]
  split_ifs <;> rfl

@[simp] theorem samplerTick_temp_count (t : ℚ) (s : Workshop) :
    (samplerTick t s).temp_count = s.temp_count + 1 := by
  simp only [samplerTick]
  split_ifs <;> rfl

theorem rave_step (picks : Fin 3 → Fin 3 × Fin 2) (s : Workshop)
    (h : s.task_mode = "rave") :
    (LED_ioloop_callback picks s).1.task_mode = "rave" ∧
    (LED_ioloop_callback picks s).1.rave_ioloop_counter = s.rave_ioloop_counter + 1 ∧
    (LED_ioloop_callback picks s).2 =
      [(((picks 0).1 : ℕ), (((picks 0).2 : ℕ) : ℤ)),
       (((picks 1).1 : ℕ), (((picks 1).2 : ℕ) : ℤ)),
       (((picks 2).1 : ℕ), (((picks 2).2 : ℕ) : ℤ))] := by
  simp [LED_ioloop_callback, update_leds, update_led, h]

theorem fin2_level : ∀ y : Fin 2, ((y : ℕ) : ℤ) = 0 ∨ ((y : ℕ) : ℤ) = 1 := by
  decide

/-- Auxiliary form of the rave-mode counting property, with the initial counter
value left symbolic so that it can be proved by induction on the tick count. -/
theorem rave_counts_aux (ps : ℕ → Fin 3 → Fin 3 × Fin 2) (N : ℕ) (s : Workshop)
    (hmode : s.task_mode = "rave") :
    (iterateFast ps N s).1.task_mode = "rave" ∧
    (iterateFast ps N s).1.rave_ioloop_counter = s.rave_ioloop_counter + N ∧
    (iterateFast ps N s).2.length = 3 * N ∧
    ∀ c ∈ (iterateFast ps N s).2, c.1 < 3 ∧ (c.2 = 0 ∨ c.2 = 1) := by
  induction N generalizing ps s with
  | zero => simpa [iterateFast] using hmode
  | succ n ih =>
    obtain ⟨h1, h2, h3⟩ := rave_step (ps 0) s hmode
    obtain ⟨g1, g2, g3, g4⟩ := ih (fun i => ps (i + 1)) _ h1
    refine ⟨?_, ?_, ?_, ?_⟩
    · simpa only [iterateFast] using g1
    · simp only [iterateFast]
      rw [g2, h2]
      omega
    · simp only [iterateFast, List.length_append]
      rw [g3, h3]
      simp only [List.length_cons, List.length_nil]
      omega
    · intro c hc
      simp only [iterateFast, List.mem_append] at hc
      rcases hc with hc | hc
      · rw [h3] at hc
        simp only [List.mem_cons, List.not_mem_nil, or_false] at hc
        rcases hc with rfl | rfl | rfl <;>
          exact ⟨Fin.isLt _, fin2_level _⟩
      · exact g4 c hc

theorem traffic_step (picks : Fin 3 → Fin 3 × Fin 2) (s : Workshop)
    (h : s.task_mode = "traffic") :
    (LED_ioloop_callback picks s).1.task_mode = "traffic" ∧
    (LED_ioloop_callback picks s).1.traffic_wait_counter =
      (if s.traffic_wait_counter + 1 = 39 then 0 else s.traffic_wait_counter + 1) ∧
    (LED_ioloop_callback picks s).1.traffic_loop_counter =
      s.traffic_loop_counter + (if s.traffic_wait_counter + 1 = 39 then 1 else 0) ∧
    (LED_ioloop_callback picks s).2 = trafficTable (s.traffic_wait_counter + 1) := by
  by_cases h2 : s.traffic_wait_counter + 1 = 2
  · simp [LED_ioloop_callback, update_leds, update_led, trafficTable, h, h2]
  by_cases h14 : s.traffic_wait_counter + 1 = 14
  · simp [LED_ioloop_callback, update_leds, update_led, trafficTable, h, h2, h14]
  by_cases h22 : s.traffic_wait_counter + 1 = 22
  · simp [LED_ioloop_callback, update_leds, update_led, trafficTable, h, h2, h14, h22]
  by_cases h34 : s.traffic_wait_counter + 1 = 34
  · simp [LED_ioloop_callback, update_leds, update_led, trafficTable, h, h2, h14, h22, h34]
  by_cases h39 : s.traffic_wait_counter + 1 = 39
  · simp [LED_ioloop_callback, update_leds, update_led, trafficTable, h, h2, h14, h22, h34,
      h39]
  · simp [LED_ioloop_callback, update_leds, update_led, trafficTable, h, h2, h14, h22, h34,
      h39]

/-- Traffic-mode run lemma, generalised over the starting phase-counter value
`s.traffic_wait_counter ≤ 38` so that it can be proved by induction on the
number of ticks. -/
theorem traffic_run_aux (ps : ℕ → Fin 3 → Fin 3 × Fin 2) (k : ℕ) (s : Workshop)
    (hmode : s.task_mode = "traffic") (hw : s.traffic_wait_counter ≤ 38)
    (hk : s.traffic_wait_counter + k ≤ 39) :
    (iterateFast ps k s).1.task_mode = "traffic" ∧
    (iterateFast ps k s).1.traffic_wait_counter =
      (if s.traffic_wait_counter + k = 39 then 0 else s.traffic_wait_counter + k) ∧
    (iterateFast ps k s).1.traffic_loop_counter =
      s.traffic_loop_counter + (if s.traffic_wait_counter + k = 39 then 1 else 0) ∧
    (iterateFast ps k s).2 =
      ((List.range k).map fun i => trafficTable (s.traffic_wait_counter + i + 1)).flatten := by
  induction k generalizing ps s with
  | zero =>
    have h0 : ¬ s.traffic_wait_counter + 0 = 39 := by omega
    refine ⟨by simpa [iterateFast] using hmode, ?_, ?_, by simp [iterateFast]⟩
    · simp only [iterateFast, if_neg h0]
      omega
    · simp only [iterateFast, if_neg h0]
      omega
  | succ n ih =>
    obtain ⟨t1, t2, t3, t4⟩ := traffic_step (ps 0) s hmode
    by_cases hreset : s.traffic_wait_counter + 1 = 39
    · have hn : n = 0 := by omega
      subst hn
      refine ⟨?_, ?_, ?_, ?_⟩
      · simpa only [iterateFast] using t1
      · simp only [iterateFast]
        rw [t2]
      · simp only [iterateFast]
        rw [t3]
      · simp only [iterateFast]
        rw [t4, show List.range 1 = [0] from rfl]
        simp
    · obtain ⟨g1, g2, g3, g4⟩ := ih (fun i => ps (i + 1)) _ t1
        (by rw [t2, if_neg hreset]; omega)
        (by rw [t2, if_neg hreset]; omega)
      rw [t2, if_neg hreset] at g2 g3 g4
      refine ⟨?_, ?_, ?_, ?_⟩
      · simpa only [iterateFast] using g1
      · simp only [iterateFast]
        rw [g2]
        have he : s.traffic_wait_counter + 1 + n = s.traffic_wait_counter + (n + 1) := by
          omega
        rw [he]
      · simp only [iterateFast]
        rw [g3, t3, if_neg hreset]
        have he : s.traffic_wait_counter + 1 + n = s.traffic_wait_counter + (n + 1) := by
          omega
        rw [he]
        omega
      · simp only [iterateFast]
        rw [g4, t4, List.range_succ_eq_map]
        simp only [List.map_cons, List.map_map, List.flatten_cons, Nat.add_zero]
        congr 1
        congr 1
        apply List.map_congr_left
        intro i _
        simp only [Function.comp_apply]
        congr 2
        omega

/-- C1: in traffic mode starting from phase counter 0, each fast tick
increments the phase counter by one; the output bank is written exactly when
the counter equals 2 (YELLOW to 0, RED to 1), 14 (YELLOW to 1), 22 (RED to 0,
YELLOW to 0, GREEN to 1) and 34 (GREEN to 0, YELLOW to 1), and at no other
counter value; and on the 39th tick the phase counter is reset to 0 while the
loop-completion counter increments by exactly 1. -/
theorem claim_C1_traffic_cycle (ps : ℕ → Fin 3 → Fin 3 × Fin 2) (s : Workshop)
    (hmode : s.task_mode = "traffic") (hzero : s.traffic_wait_counter = 0)
    (k : ℕ) (hk : k ≤ 39) :
    (iterateFast ps k s).1.traffic_wait_counter = (if k = 39 then 0 else k) ∧
    (iterateFast ps k s).1.traffic_loop_counter =
      s.traffic_loop_counter + (if k = 39 then 1 else 0) ∧
    (iterateFast ps k s).2 =
      ((List.range k).map fun i => trafficTable (i + 1)).flatten := by
  obtain ⟨-, g2, g3, g4⟩ := traffic_run_aux ps k s hmode (by omega) (by omega)
  rw [hzero] at g2 g3 g4
  simp only [Nat.zero_add] at g2 g3 g4
  exact ⟨g2, g3, g4⟩

/-- Witness for `claim_C1_traffic_cycle`: one full 39-tick cycle from the
initial state switched to traffic mode. -/
theorem claim_C1_traffic_cycle_witness :
    (set_task_mode "traffic" initWorkshop).task_mode = "traffic" ∧
    (set_task_mode "traffic" initWorkshop).traffic_wait_counter = 0 ∧
    (39 : ℕ) ≤ 39 ∧
    ((iterateFast (fun _ _ => (0, 0)) 39 (set_task_mode "traffic" initWorkshop)).1.traffic_wait_counter =
       (if (39 : ℕ) = 39 then 0 else 39) ∧
     (iterateFast (fun _ _ => (0, 0)) 39 (set_task_mode "traffic" initWorkshop)).1.traffic_loop_counter =
       (set_task_mode "traffic" initWorkshop).traffic_loop_counter +
         (if (39 : ℕ) = 39 then 1 else 0) ∧
     (iterateFast (fun _ _ => (0, 0)) 39 (set_task_mode "traffic" initWorkshop)).2 =
       ((List.range 39).map fun i => trafficTable (i + 1)).flatten) :=
  ⟨by decide, by decide, by decide,
   claim_C1_traffic_cycle (fun _ _ => (0, 0)) (set_task_mode "traffic" initWorkshop)
     (by decide) (by decide) 39 (by decide)⟩

/-- C4: in rave mode, after exactly `N` fast ticks the rave tick counter equals
exactly `N` and exactly `3 * N` output-bank calls have been made, each with a
channel in `{0, 1, 2}` and a level in `{0, 1}`, for every possible outcome of
the random choices. -/
theorem claim_C4_rave_counts (ps : ℕ → Fin 3 → Fin 3 × Fin 2) (N : ℕ)
    (s : Workshop) (hmode : s.task_mode = "rave")
    (hzero : s.rave_ioloop_counter = 0) :
    (iterateFast ps N s).1.rave_ioloop_counter = N ∧
    (iterateFast ps N s).2.length = 3 * N ∧
    ∀ c ∈ (iterateFast ps N s).2, c.1 < 3 ∧ (c.2 = 0 ∨ c.2 = 1) := by
  obtain ⟨-, g2, g3, g4⟩ := rave_counts_aux ps N s hmode
  refine ⟨?_, g3, g4⟩
  rw [g2, hzero]
  omega

/-- Witness for `claim_C4_rave_counts` at a concrete rave-mode state, pick
stream and tick count. -/
theorem claim_C4_rave_counts_witness :
    (set_task_mode "rave" initWorkshop).task_mode = "rave" ∧
    (set_task_mode "rave" initWorkshop).rave_ioloop_counter = 0 ∧
    ((iterateFast (fun _ _ => (2, 1)) 2 (set_task_mode "rave" initWorkshop)).1.rave_ioloop_counter = 2 ∧
     (iterateFast (fun _ _ => (2, 1)) 2 (set_task_mode "rave" initWorkshop)).2.length = 3 * 2 ∧
     ∀ c ∈ (iterateFast (fun _ _ => (2, 1)) 2 (set_task_mode "rave" initWorkshop)).2,
       c.1 < 3 ∧ (c.2 = 0 ∨ c.2 = 1)) :=
  ⟨by decide, by decide,
   claim_C4_rave_counts (fun _ _ => (2, 1)) 2 (set_task_mode "rave" initWorkshop)
     (by decide) (by decide)⟩

/-- C5 counterexample: `'rave'` is a mode other than thermometer and traffic,
yet a rave-mode fast tick does call the output bank, refuting the claim as
stated. -/
theorem claim_C5_counterexample :
    (set_task_mode "rave" initWorkshop).task_mode ≠ "thermometer" ∧
    (set_task_mode "rave" initWorkshop).task_mode ≠ "traffic" ∧
    (LED_ioloop_callback (fun _ => (0, 0)) (set_task_mode "rave" initWorkshop)).2 ≠ [] := by
  refine ⟨by decide, by decide, by decide⟩

/-- C5 (amended): for every mode other than rave and traffic, a fast tick makes
no calls to the output bank and leaves the state untouched (command mode's fast
tick is a true no-op on hardware). -/
theorem claim_C5_fast_tick_noop (picks : Fin 3 → Fin 3 × Fin 2) (s : Workshop)
    (h1 : s.task_mode ≠ "rave") (h2 : s.task_mode ≠ "traffic") :
    (LED_ioloop_callback picks s).1 = s ∧ (LED_ioloop_callback picks s).2 = [] := by
  constructor <;> simp [LED_ioloop_callback, h1, h2]

/-- Witness for `claim_C5_fast_tick_noop` at the initial (command-mode)
state. -/
theorem claim_C5_fast_tick_noop_witness :
    initWorkshop.task_mode ≠ "rave" ∧
    ((LED_ioloop_callback (fun _ => (0, 0)) initWorkshop).1 = initWorkshop ∧
     (LED_ioloop_callback (fun _ => (0, 0)) initWorkshop).2 = []) :=
  ⟨by decide,
   claim_C5_fast_tick_noop (fun _ => (0, 0)) initWorkshop (by decide) (by decide)⟩

/-- C8: any mode string outside `{rave, traffic, thermometer}` is stored
without validation, and in that mode the fast tick changes nothing and makes no
output-bank calls, while the slow tick makes no output-bank calls. -/
theorem claim_C8_unknown_mode_is_command (m : String) (s : Workshop)
    (picks : Fin 3 → Fin 3 × Fin 2) (t : ℚ)
    (h1 : m ≠ "rave") (h2 : m ≠ "traffic") (h3 : m ≠ "thermometer") :
    (set_task_mode m s).task_mode = m ∧
    (LED_ioloop_callback picks (set_task_mode m s)).1 = set_task_mode m s ∧
    (LED_ioloop_callback picks (set_task_mode m s)).2 = [] ∧
    (temp_ioloop_callback t (set_task_mode m s)).2 = [] := by
  refine ⟨rfl, ?_, ?_, ?_⟩
  · simp [LED_ioloop_callback, set_task_mode, h1, h2]
  · simp [LED_ioloop_callback, set_task_mode, h1, h2]
  · simp [temp_ioloop_callback, set_task_mode, h3, apply_ite Workshop.task_mode]

/-- Witness for `claim_C8_unknown_mode_is_command` with the mode string
`'disco'`. -/
theorem claim_C8_unknown_mode_is_command_witness :
    ("disco" : String) ≠ "rave" ∧
    ((set_task_mode "disco" initWorkshop).task_mode = "disco" ∧
     (LED_ioloop_callback (fun _ => (0, 0)) (set_task_mode "disco" initWorkshop)).1 =
       set_task_mode "disco" initWorkshop ∧
     (LED_ioloop_callback (fun _ => (0, 0)) (set_task_mode "disco" initWorkshop)).2 = [] ∧
     (temp_ioloop_callback 0 (set_task_mode "disco" initWorkshop)).2 = []) :=
  ⟨by decide,
   claim_C8_unknown_mode_is_command "disco" initWorkshop (fun _ => (0, 0)) 0
     (by decide) (by decide) (by decide)⟩

/-! ## The rolling-average sampler -/

theorem update_leds_eq (l : List (ℕ × ℤ)) (s : Workshop) :
    update_leds s l = ({ s with led_states := apply_updates s.led_states l }, l) := by
  induction l generalizing s with
  | nil => simp [update_leds, apply_updates]
  | cons a rest ih =>
    obtain ⟨x, v⟩ := a
    simp [update_leds, update_led, apply_updates, ih]

/-- The slow tick's state is the sampler stage's state with some LED levels
(depending on the mode and thresholds) written on top. -/
theorem temp_tick_fst (t : ℚ) (s : Workshop) :
    ∃ g : ℕ → ℤ,
      (temp_ioloop_callback t s).1 = { samplerTick t s with led_states := g } := by
  simp only [temp_ioloop_callback, update_leds_eq, update_led]
  split_ifs <;> exact ⟨_, rfl⟩

theorem samplerTick_avg_count (t : ℚ) (s : Workshop) (h : s.avg_count < 10) :
    (samplerTick t s).avg_count = (s.avg_count + 1) % 10 := by
  simp only [samplerTick]
  split_ifs <;> simp <;> omega

theorem samplerTick_switch (t : ℚ) (s : Workshop) (h : s.avg_count < 10) :
    ((samplerTick t s).ten_count_switch = true ↔
      (s.ten_count_switch = true ∨ s.avg_count + 1 = 10)) := by
  simp only [samplerTick]
  split_ifs with h1 h2 <;> simp [h1] <;> omega

theorem samplerTick_buf (t : ℚ) (s : Workshop) :
    (samplerTick t s).avg_temp_calc = Function.update s.avg_temp_calc s.avg_count t := by
  simp only [samplerTick]
  split_ifs <;> rfl

theorem samplerTick_avg (t : ℚ) (s : Workshop) (h : s.avg_count < 10) :
    (samplerTick t s).avg_temp =
      (∑ i ∈ Finset.range 10, Function.update s.avg_temp_calc s.avg_count t i) /
        (((if s.ten_count_switch = true ∨ s.avg_count + 1 = 10 then 10
           else s.avg_count + 1 : ℕ) : ℚ)) := by
  by_cases h1 : s.ten_count_switch = true
  · rw [if_pos (Or.inl h1)]
    simp [samplerTick, h1]
  · by_cases h2 : s.avg_count + 1 = 10
    · rw [if_pos (Or.inr h2)]
      have h3 : ¬ (s.avg_count + 1 < 10) := by omega
      simp [samplerTick, h1, h3]
    · have h3 : s.avg_count + 1 < 10 := by omega
      rw [if_neg (by tauto)]
      simp [samplerTick, h1, h3]

theorem runSlow_append (ts1 ts2 : List ℚ) (s : Workshop) :
    runSlow (ts1 ++ ts2) s = runSlow ts2 (runSlow ts1 s) := by
  induction ts1 generalizing s with
  | nil => simp [runSlow]
  | cons t ts ih => simp [runSlow, ih]

theorem slotVal_snoc (ts : List ℚ) (t : ℚ) (j : ℕ) (hj : j < 10) :
    slotVal (ts ++ [t]) j = if j = ts.length % 10 then t else slotVal ts j := by
  have hlen : (ts ++ [t]).length = ts.length + 1 := by simp
  by_cases he : j = ts.length % 10
  · subst he
    rw [if_pos rfl]
    unfold slotVal
    rw [hlen]
    have hidx : slotIdx (ts.length + 1) (ts.length % 10) = ts.length := by
      unfold slotIdx
      split_ifs <;> omega
    rw [if_pos (by omega), hidx, List.getD_append_right _ _ _ _ (by omega)]
    simp
  · rw [if_neg he]
    unfold slotVal
    rw [hlen]
    by_cases hk : j < ts.length
    · have hidx : slotIdx (ts.length + 1) j = slotIdx ts.length j := by
        unfold slotIdx
        split_ifs <;> omega
      have hlt : slotIdx ts.length j < ts.length := by
        unfold slotIdx
        split_ifs <;> omega
      rw [if_pos (by omega), if_pos hk, hidx, List.getD_append _ _ _ _ hlt]
    · have hge : ¬ j < ts.length + 1 := by omega
      rw [if_neg hge, if_neg hk]

theorem slot_sum (ts : List ℚ) :
    ∑ j ∈ Finset.range 10, slotVal ts j = (ts.drop (ts.length - 10)).sum := by
  induction ts using List.reverseRecOn with
  | nil => simp [slotVal]
  | append_singleton ts t ih =>
    have hmem : ts.length % 10 ∈ Finset.range 10 := by
      simp
      omega
    have key : ∀ j ∈ Finset.range 10,
        slotVal (ts ++ [t]) j =
          Function.update (slotVal ts) (ts.length % 10) t j := by
      intro j hj
      rw [slotVal_snoc ts t j (Finset.mem_range.mp hj), Function.update_apply]
    rw [Finset.sum_congr rfl key, Finset.sum_update_of_mem hmem,
      Finset.sdiff_singleton_eq_erase]
    have herase : ∑ x ∈ (Finset.range 10).erase (ts.length % 10), slotVal ts x =
        (∑ j ∈ Finset.range 10, slotVal ts j) - slotVal ts (ts.length % 10) := by
      rw [← Finset.add_sum_erase _ _ hmem]
      ring
    rw [herase, ih]
    by_cases hk : ts.length < 10
    · have hz : slotVal ts (ts.length % 10) = 0 := by
        unfold slotVal
        rw [if_neg (by omega)]
      have hd0 : ts.length - 10 = 0 := by omega
      have hd0' : (ts ++ [t]).length - 10 = 0 := by
        simp
        omega
      rw [hz, hd0, hd0']
      simp [List.sum_append]
      ring
    · have hlt : ts.length - 10 < ts.length := by omega
      have hv : slotVal ts (ts.length % 10) = ts.getD (ts.length - 10) 0 := by
        unfold slotVal slotIdx
        rw [if_pos (by omega), if_neg (by omega)]
        congr 1
        omega
      have hdrop : ts.drop (ts.length - 10) =
          ts.getD (ts.length - 10) 0 :: ts.drop (ts.length - 10 + 1) := by
        rw [List.getD_eq_getElem _ _ hlt]
        exact List.drop_eq_getElem_cons hlt
      have hdrop2 : (ts ++ [t]).drop ((ts ++ [t]).length - 10) =
          ts.drop (ts.length - 10 + 1) ++ [t] := by
        rw [List.drop_append_eq_append_drop]
        have h1 : (ts ++ [t]).length - 10 = ts.length - 10 + 1 := by
          simp
          omega
        rw [h1]
        have h2 : ts.length - 10 + 1 - ts.length = 0 := by omega
        rw [h2, List.drop_zero]
      rw [hv, hdrop, hdrop2]
      simp [List.sum_append, List.sum_cons]
      ring

/-- Sampler state after feeding `ts` from a fresh sampler: the cursor is
`ts.length % 10`, the filled switch is set exactly once 10 samples are in, and
slot `j` holds `slotVal ts j`. -/
theorem sampler_run (ts : List ℚ) (s : Workshop) (h0 : s.avg_count = 0)
    (h1 : s.ten_count_switch = false) (h2 : ∀ j, s.avg_temp_calc j = 0) :
    (runSlow ts s).avg_count = ts.length % 10 ∧
    ((runSlow ts s).ten_count_switch = true ↔ 10 ≤ ts.length) ∧
    (∀ j, j < 10 → (runSlow ts s).avg_temp_calc j = slotVal ts j) := by
  induction ts using List.reverseRecOn with
  | nil =>
    refine ⟨by simp [runSlow, h0], by simp [runSlow, h1], ?_⟩
    intro j hj
    simp only [runSlow]
    rw [h2 j]
    unfold slotVal
    simp
  | append_singleton ts t ih =>
    obtain ⟨g0, g1, g2⟩ := ih
    rw [runSlow_append]
    have hcnt : (runSlow ts s).avg_count < 10 := by
      rw [g0]
      omega
    obtain ⟨g, hg⟩ := temp_tick_fst t (runSlow ts s)
    have hstep : runSlow [t] (runSlow ts s) = (temp_ioloop_callback t (runSlow ts s)).1 := by
      simp [runSlow]
    rw [hstep, hg]
    refine ⟨?_, ?_, ?_⟩
    · show (samplerTick t (runSlow ts s)).avg_count = (ts ++ [t]).length % 10
      rw [samplerTick_avg_count t _ hcnt, g0]
      simp only [List.length_append, List.length_singleton]
      omega
    · show ((samplerTick t (runSlow ts s)).ten_count_switch = true ↔ 10 ≤ (ts ++ [t]).length)
      rw [samplerTick_switch t _ hcnt, g1, g0]
      simp only [List.length_append, List.length_singleton]
      omega
    · intro j hj
      show (samplerTick t (runSlow ts s)).avg_temp_calc j = slotVal (ts ++ [t]) j
      rw [samplerTick_buf, Function.update_apply, g0, slotVal_snoc ts t j hj]
      by_cases he : j = ts.length % 10
      · simp [he]
      · simp only [if_neg he]
        exact g2 j hj

/-- C2: after the `k`-th slow-tick sample the reported rolling average is the
sum of all samples so far divided by `k` while `k ≤ 10`, and the sum of the 10
most recent samples divided by 10 for `k > 10`, regardless of the cursor
position; in particular `k < 10` samples all equal to `v` average exactly
`v`. -/
theorem claim_C2_rolling_average (s : Workshop) (h0 : s.avg_count = 0)
    (h1 : s.ten_count_switch = false) (h2 : ∀ j, s.avg_temp_calc j = 0)
    (ts : List ℚ) (hne : ts ≠ []) :
    (runSlow ts s).avg_temp =
      (if ts.length ≤ 10 then ts.sum / (ts.length : ℚ)
       else (ts.drop (ts.length - 10)).sum / 10) ∧
    (∀ v : ℚ, (∀ x ∈ ts, x = v) → ts.length < 10 → (runSlow ts s).avg_temp = v) := by
  have main : (runSlow ts s).avg_temp =
      (if ts.length ≤ 10 then ts.sum / (ts.length : ℚ)
       else (ts.drop (ts.length - 10)).sum / 10) := by
    obtain ⟨ts', t, rfl⟩ := (List.eq_nil_or_concat ts).resolve_left hne
    simp only [List.concat_eq_append]
    obtain ⟨g0, g1, g2⟩ := sampler_run ts' s h0 h1 h2
    have hcnt : (runSlow ts' s).avg_count < 10 := by
      rw [g0]
      omega
    obtain ⟨g, hg⟩ := temp_tick_fst t (runSlow ts' s)
    have hstep : runSlow [t] (runSlow ts' s) =
        (temp_ioloop_callback t (runSlow ts' s)).1 := by
      simp [runSlow]
    rw [runSlow_append, hstep, hg]
    show (samplerTick t (runSlow ts' s)).avg_temp = _
    rw [samplerTick_avg t _ hcnt]
    have hsum : (∑ i ∈ Finset.range 10,
        Function.update (runSlow ts' s).avg_temp_calc (runSlow ts' s).avg_count t i)
        = ((ts' ++ [t]).drop ((ts' ++ [t]).length - 10)).sum := by
      rw [← slot_sum]
      apply Finset.sum_congr rfl
      intro j hj
      have hj10 := Finset.mem_range.mp hj
      rw [Function.update_apply, g0, slotVal_snoc ts' t j hj10]
      by_cases he : j = ts'.length % 10
      · simp [he]
      · simp only [if_neg he]
        exact g2 j hj10
    have hdiv : (if (runSlow ts' s).ten_count_switch = true ∨
          (runSlow ts' s).avg_count + 1 = 10 then (10 : ℕ)
        else (runSlow ts' s).avg_count + 1) =
        (if (ts' ++ [t]).length ≤ 10 then (ts' ++ [t]).length else 10) := by
      rw [g0]
      simp only [List.length_append, List.length_singleton]
      by_cases hk : 10 ≤ ts'.length
      · rw [if_pos (Or.inl (g1.mpr hk)), if_neg (by omega)]
      · by_cases h9 : ts'.length = 9
        · rw [if_pos (Or.inr (by omega)), if_pos (by omega)]
          omega
        · have hA : ¬ ((runSlow ts' s).ten_count_switch = true) := by
            rw [g1]
            omega
          have hB : ¬ (ts'.length % 10 + 1 = 10) := by omega
          rw [if_neg (by tauto), if_pos (by omega)]
          omega
    rw [hsum, hdiv]
    by_cases hlen : (ts' ++ [t]).length ≤ 10
    · rw [if_pos hlen, if_pos hlen]
      have hz : (ts' ++ [t]).length - 10 = 0 := by omega
      rw [hz, List.drop_zero]
    · rw [if_neg hlen, if_neg hlen]
      norm_num
  refine ⟨main, ?_⟩
  intro v hv hlt
  rw [main, if_pos (by omega), List.sum_eq_card_nsmul _ v hv, nsmul_eq_mul]
  have hlen0 : (ts.length : ℚ) ≠ 0 := by
    have : ts.length ≠ 0 := by
      intro hc
      exact hne (List.length_eq_zero.mp hc)
    exact_mod_cast this
  exact mul_div_cancel_left₀ v hlen0

/-- Witness for `claim_C2_rolling_average` with the three samples
`[1, 2, 3]`. -/
theorem claim_C2_rolling_average_witness :
    (initWorkshop.avg_count = 0 ∧ ([1, 2, 3] : List ℚ) ≠ []) ∧
    ((runSlow [1, 2, 3] initWorkshop).avg_temp =
      (if ([1, 2, 3] : List ℚ).length ≤ 10
       then ([1, 2, 3] : List ℚ).sum / ((([1, 2, 3] : List ℚ).length : ℕ) : ℚ)
       else (([1, 2, 3] : List ℚ).drop (([1, 2, 3] : List ℚ).length - 10)).sum / 10) ∧
     (∀ v : ℚ, (∀ x ∈ ([1, 2, 3] : List ℚ), x = v) →
        ([1, 2, 3] : List ℚ).length < 10 →
        (runSlow [1, 2, 3] initWorkshop).avg_temp = v)) :=
  ⟨⟨rfl, by decide⟩,
   claim_C2_rolling_average initWorkshop rfl rfl (fun _ => rfl) [1, 2, 3] (by decide)⟩

/-- C10: along every sequence of slow ticks from the initial state the write
cursor stays in `0..9` (so the 10-element buffer is never indexed out of
bounds at the write) and the divisor the next tick will use is strictly
positive. -/
theorem claim_C10_sampler_safety (ts : List ℚ) :
    (runSlow ts initWorkshop).avg_count < 10 ∧
    0 < tickDivisor (runSlow ts initWorkshop) := by
  obtain ⟨g0, -, -⟩ := sampler_run ts initWorkshop rfl rfl (fun _ => rfl)
  constructor
  · rw [g0]
    omega
  · unfold tickDivisor
    split_ifs <;> omega

/-- C3: in thermometer mode each slow tick first forces all three outputs to
0, then lights exactly one indicator from the just-sampled raw temperature:
strictly below the lower bound only YELLOW, strictly between the bounds only
GREEN, strictly above the upper bound only RED; at exact equality with either
bound no indicator is lit. -/
theorem claim_C3_thermometer (t : ℚ) (s : Workshop)
    (hmode : s.task_mode = "thermometer")
    (hb : s.temp_bounds.1 ≤ s.temp_bounds.2) :
    (t < s.temp_bounds.1 →
       (temp_ioloop_callback t s).2 =
         [(RED, 0), (YELLOW, 0), (GREEN, 0), (YELLOW, 1)] ∧
       (temp_ioloop_callback t s).1.led_states YELLOW = 1 ∧
       (temp_ioloop_callback t s).1.led_states RED = 0 ∧
       (temp_ioloop_callback t s).1.led_states GREEN = 0) ∧
    (s.temp_bounds.1 < t → t < s.temp_bounds.2 →
       (temp_ioloop_callback t s).2 =
         [(RED, 0), (YELLOW, 0), (GREEN, 0), (GREEN, 1)] ∧
       (temp_ioloop_callback t s).1.led_states GREEN = 1 ∧
       (temp_ioloop_callback t s).1.led_states RED = 0 ∧
       (temp_ioloop_callback t s).1.led_states YELLOW = 0) ∧
    (s.temp_bounds.2 < t →
       (temp_ioloop_callback t s).2 =
         [(RED, 0), (YELLOW, 0), (GREEN, 0), (RED, 1)] ∧
       (temp_ioloop_callback t s).1.led_states RED = 1 ∧
       (temp_ioloop_callback t s).1.led_states YELLOW = 0 ∧
       (temp_ioloop_callback t s).1.led_states GREEN = 0) ∧
    ((t = s.temp_bounds.1 ∨ t = s.temp_bounds.2) →
       (temp_ioloop_callback t s).2 = [(RED, 0), (YELLOW, 0), (GREEN, 0)] ∧
       (temp_ioloop_callback t s).1.led_states RED = 0 ∧
       (temp_ioloop_callback t s).1.led_states YELLOW = 0 ∧
       (temp_ioloop_callback t s).1.led_states GREEN = 0) := by
  refine ⟨?_, ?_, ?_, ?_⟩
  · intro hlt
    simp [temp_ioloop_callback, update_leds_eq, update_led, apply_updates, hmode, hlt,
      RED, YELLOW, GREEN, Function.update_apply]
  · intro h1 h2
    have hnlt : ¬ (t < s.temp_bounds.1) := not_lt.mpr h1.le
    simp [temp_ioloop_callback, update_leds_eq, update_led, apply_updates, hmode, hnlt,
      h1, h2, RED, YELLOW, GREEN, Function.update_apply]
  · intro hgt
    have hnlt : ¬ (t < s.temp_bounds.1) := not_lt.mpr (hb.trans hgt.le)
    have hn2 : ¬ (t < s.temp_bounds.2) := not_lt.mpr hgt.le
    simp [temp_ioloop_callback, update_leds_eq, update_led, apply_updates, hmode, hnlt,
      hn2, hgt, RED, YELLOW, GREEN, Function.update_apply]
  · rintro (he | he)
    · have hnlt : ¬ (t < s.temp_bounds.1) := by
        rw [he]
        exact lt_irrefl _
      have hngt : ¬ (s.temp_bounds.1 < t) := by
        rw [he]
        exact lt_irrefl _
      have hn3 : ¬ (s.temp_bounds.2 < t) := by
        rw [he]
        exact not_lt.mpr hb
      simp [temp_ioloop_callback, update_leds_eq, update_led, apply_updates, hmode,
        hnlt, hngt, hn3, RED, YELLOW, GREEN, Function.update_apply]
    · have hnlt : ¬ (t < s.temp_bounds.1) := by
        rw [he]
        exact not_lt.mpr hb
      have hn2 : ¬ (t < s.temp_bounds.2) := by
        rw [he]
        exact lt_irrefl _
      have hn3 : ¬ (s.temp_bounds.2 < t) := by
        rw [he]
        exact lt_irrefl _
      simp [temp_ioloop_callback, update_leds_eq, update_led, apply_updates, hmode,
        hnlt, hn2, hn3, RED, YELLOW, GREEN, Function.update_apply]

/-- Witness for `claim_C3_thermometer`: thermometer mode with the bounds set
to `(21, 23)` through the setter and a reading of 20, which is strictly below
the lower bound, so only YELLOW lights. -/
theorem claim_C3_thermometer_witness :
    (set_temp_bounds 0 21 (set_temp_bounds 1 23
        (set_task_mode "thermometer" initWorkshop))).task_mode = "thermometer" ∧
    (set_temp_bounds 0 21 (set_temp_bounds 1 23
        (set_task_mode "thermometer" initWorkshop))).temp_bounds.1 ≤
      (set_temp_bounds 0 21 (set_temp_bounds 1 23
        (set_task_mode "thermometer" initWorkshop))).temp_bounds.2 ∧
    ((20 : ℚ) < (set_temp_bounds 0 21 (set_temp_bounds 1 23
        (set_task_mode "thermometer" initWorkshop))).temp_bounds.1 ∧
     (temp_ioloop_callback 20 (set_temp_bounds 0 21 (set_temp_bounds 1 23
        (set_task_mode "thermometer" initWorkshop)))).1.led_states YELLOW = 1 ∧
     (temp_ioloop_callback 20 (set_temp_bounds 0 21 (set_temp_bounds 1 23
        (set_task_mode "thermometer" initWorkshop)))).1.led_states RED = 0 ∧
     (temp_ioloop_callback 20 (set_temp_bounds 0 21 (set_temp_bounds 1 23
        (set_task_mode "thermometer" initWorkshop)))).1.led_states GREEN = 0) :=
  ⟨by decide, by decide,
   by
    have h := claim_C3_thermometer 20
      (set_temp_bounds 0 21 (set_temp_bounds 1 23
        (set_task_mode "thermometer" initWorkshop)))
      (by decide) (by decide)
    exact ⟨by decide, (h.1 (by decide)).2.1, (h.1 (by decide)).2.2.1,
      (h.1 (by decide)).2.2.2⟩⟩

/-! ## The LED state-mirror invariant -/

theorem apply_updates_append (l1 l2 : List (ℕ × ℤ)) (f : ℕ → ℤ) :
    apply_updates f (l1 ++ l2) = apply_updates (apply_updates f l1) l2 := by
  induction l1 generalizing f with
  | nil => simp [apply_updates]
  | cons a rest ih =>
    obtain ⟨x, v⟩ := a
    simp [apply_updates, ih]

theorem lastLevel_append_single (log : List Call) (a : ℕ) (v : ℤ) (ch : ℕ) :
    lastLevel (log ++ [(a, v)]) ch = if ch = a then some v else lastLevel log ch := by
  unfold lastLevel
  rw [List.filter_append]
  by_cases he : ch = a
  · subst he
    simp
  · have : ¬ (a == ch) = true := by
      simp
      omega
    simp [this, he]

theorem invLL_updates (l : List (ℕ × ℤ)) (f : ℕ → ℤ) (log : List Call)
    (h : ∀ c, c < 3 → lastLevel log c = some (f c)) :
    ∀ c, c < 3 → lastLevel (log ++ l) c = some (apply_updates f l c) := by
  induction l generalizing f log with
  | nil =>
    intro c hc
    simpa [apply_updates] using h c hc
  | cons a rest ih =>
    obtain ⟨x, v⟩ := a
    intro c hc
    have h2 : ∀ c, c < 3 →
        lastLevel (log ++ [(x, v)]) c = some (Function.update f x v c) := by
      intro c' hc'
      rw [lastLevel_append_single, Function.update_apply]
      by_cases he : c' = x
      · simp [he]
      · simp [he, h c' hc']
    have h3 := ih (Function.update f x v) (log ++ [(x, v)]) h2 c hc
    simpa [apply_updates] using h3

/-- The fast tick's effect on `led_states` is exactly its call log applied in
order. -/
theorem LED_callback_led (picks : Fin 3 → Fin 3 × Fin 2) (s : Workshop) :
    (LED_ioloop_callback picks s).1.led_states =
      apply_updates s.led_states (LED_ioloop_callback picks s).2 := by
  simp only [LED_ioloop_callback, update_leds_eq]
  split_ifs <;> simp [apply_updates_append, apply_updates]

/-- The slow tick's effect on `led_states` is exactly its call log applied in
order. -/
theorem temp_callback_led (t : ℚ) (s : Workshop) :
    (temp_ioloop_callback t s).1.led_states =
      apply_updates s.led_states (temp_ioloop_callback t s).2 := by
  simp only [temp_ioloop_callback, update_leds_eq, update_led]
  split_ifs <;> simp [apply_updates_append, apply_updates]

theorem runOp_led (op : Op) (s : Workshop) :
    (runOp op s).1.led_states = apply_updates s.led_states (runOp op s).2 := by
  cases op with
  | fastTick picks => exact LED_callback_led picks s
  | slowTick t => exact temp_callback_led t s
  | setLed l v => simp [runOp, set_led_state, apply_updates]
  | setMode m => simp [runOp, set_task_mode, apply_updates]
  | setBound b t =>
    simp only [runOp, set_temp_bounds, apply_updates]
    split_ifs <;> rfl
  | setInterval v => simp [runOp, set_LED_task_interval, apply_updates]
  | setEnable e =>
    simp only [runOp, set_LED_task_enable, start_LED_task, stop_LED_task, apply_updates]
    split_ifs <;> rfl

/-- C9: for every channel `i < 3` and after every sequence of operations, the
in-memory entry `led_states[i]` equals the level most recently commanded to the
output bank for channel `i` (the `__init__` writes included). -/
theorem claim_C9_led_state_mirror (ops : List Op) (ch : ℕ) (hch : ch < 3) :
    lastLevel (initCalls ++ (runOps ops initWorkshop).2) ch =
      some ((runOps ops initWorkshop).1.led_states ch) := by
  suffices h : ∀ (s : Workshop) (log : List Call),
      (∀ c, c < 3 → lastLevel log c = some (s.led_states c)) →
      ∀ c, c < 3 →
        lastLevel (log ++ (runOps ops s).2) c = some ((runOps ops s).1.led_states c) by
    refine h initWorkshop initCalls ?_ ch hch
    intro c hc
    interval_cases c <;> rfl
  induction ops with
  | nil =>
    intro s log h c hc
    simpa [runOps] using h c hc
  | cons op rest ih =>
    intro s log h c hc
    simp only [runOps]
    rw [← List.append_assoc]
    refine ih (runOp op s).1 (log ++ (runOp op s).2) ?_ c hc
    intro c' hc'
    rw [runOp_led]
    exact invLL_updates _ _ _ h c' hc'

/-- Witness for `claim_C9_led_state_mirror`: a rave tick followed by a direct
LED parameter write. -/
theorem claim_C9_led_state_mirror_witness :
    (2 : ℕ) < 3 ∧
    lastLevel
      (initCalls ++
        (runOps [Op.setMode "rave", Op.fastTick (fun _ => (2, 1)), Op.setLed 0 1]
          initWorkshop).2) 2 =
      some ((runOps [Op.setMode "rave", Op.fastTick (fun _ => (2, 1)), Op.setLed 0 1]
          initWorkshop).1.led_states 2) :=
  ⟨by decide,
   claim_C9_led_state_mirror
     [Op.setMode "rave", Op.fastTick (fun _ => (2, 1)), Op.setLed 0 1] 2 (by decide)⟩

/-! ## Parameter-interface error behaviour -/

/-- C7: `get` on a path that does not exist fails with a NotFound-style error;
`set` on a path whose leaf has no setter (the read-only counters) fails with a
ReadOnly-style error, surfaced (wrapped in `WorkshopError`) as a structured
error distinguishable from NotFound; both are returned synchronously to the
caller, without retry. -/
theorem claim_C7_parameter_errors :
    workshopGet ["nonexistent"] initWorkshop =
      Except.error (PTError.NotFound "nonexistent") ∧
    workshopGet ["LED_task", "no_such_leaf"] initWorkshop =
      Except.error (PTError.NotFound "no_such_leaf") ∧
    workshopSet ["LED_task", "rave_count"] (.i 5) initWorkshop =
      Except.error (.wrap (PTError.ReadOnly "LED_task/rave_count")) ∧
    workshopSet ["LED_task", "traffic_count"] (.i 5) initWorkshop =
      Except.error (.wrap (PTError.ReadOnly "LED_task/traffic_count")) ∧
    (∀ p q : String, PTError.NotFound p ≠ PTError.ReadOnly q) := by
  refine ⟨rfl, rfl, rfl, rfl, ?_⟩
  intro p q h
  exact PTError.noConfusion h

/-- C6 (the code contradicts the claim): the `enable` leaf was registered with
the boolean attribute value `self.LED_task_enable` in the setter slot instead
of the method `set_LED_task_enable` (which is never referenced anywhere), so
the leaf has no callable setter and writing the disable value fails with a
ReadOnly error instead of stopping the task; the state is unchanged, so a
second identical write fails the same way.  The method itself, had it been
wired, would raise no error when invoked twice, leave the task stopped,
restart it on re-enable, and touch none of the rave/traffic counters — as the
claim describes. -/
theorem claim_C6_enable_leaf_not_writable :
    workshopSet ["LED_task", "enable"] (.b false) initWorkshop =
      Except.error (.wrap (PTError.ReadOnly "LED_task/enable")) ∧
    ((set_LED_task_enable false (set_LED_task_enable false initWorkshop)).ledTaskRunning
        = false ∧
     (set_LED_task_enable false (set_LED_task_enable false initWorkshop)).LED_task_enable
        = false ∧
     (set_LED_task_enable false (set_LED_task_enable false initWorkshop)).rave_ioloop_counter
        = initWorkshop.rave_ioloop_counter ∧
     (set_LED_task_enable false (set_LED_task_enable false initWorkshop)).traffic_wait_counter
        = initWorkshop.traffic_wait_counter ∧
     (set_LED_task_enable false (set_LED_task_enable false initWorkshop)).traffic_loop_counter
        = initWorkshop.traffic_loop_counter) ∧
    ((set_LED_task_enable true
        (set_LED_task_enable false initWorkshop)).ledTaskRunning = true ∧
     (set_LED_task_enable true
        (set_LED_task_enable false initWorkshop)).rave_ioloop_counter
        = initWorkshop.rave_ioloop_counter ∧
     (set_LED_task_enable true
        (set_LED_task_enable false initWorkshop)).traffic_wait_counter
        = initWorkshop.traffic_wait_counter ∧
     (set_LED_task_enable true
        (set_LED_task_enable false initWorkshop)).traffic_loop_counter
        = initWorkshop.traffic_loop_counter) :=
  ⟨rfl, ⟨rfl, rfl, rfl, rfl, rfl⟩, ⟨rfl, rfl, rfl, rfl⟩⟩

end SPItest
